import Mathlib

/-!
Verification development for the Server Monitor & Port Tester
(`serverconnection_test/main.cpp`).

The socket layer is embedded through an oracle `SocketEnv` recording, for one
connection attempt, the outcome of the three OS calls the code inspects:
the return value of `socket`, the return value of `select` on the write set,
and the pending `SO_ERROR` value read by `getsockopt`.  The pure branch
structure of `isHostReachable` and `testPortFast` is translated verbatim.
The monitor loop is embedded as a step function on `MonitorState` driven by a
list of probe outcomes; the CLI dispatcher of `main` as a function from the
input line (and the current value of the shared flag) to the printed response,
the new value of the flag, and the list of ports actually probed.
-/

/-- Oracle for one TCP connection attempt: results of the `socket`,
`select` and `getsockopt(SO_ERROR)` calls inspected by the code. -/
structure SocketEnv where
  socketResult : Int
  selectResult : Int
  soError : Int
deriving DecidableEq

/-- `bool isHostReachable(const std::string& ip, int port = 80, int timeoutMs = 500)`:
`socket < 0` returns false at once; otherwise `connected` is set only when
`select` reports readiness (`res > 0`) and `SO_ERROR` is zero. -/
def isHostReachable (env : SocketEnv) (ip : String) (port : Int) (timeoutMs : Int) : Bool :=
  if env.socketResult < 0 then false
  else
    let connected := if 0 < env.selectResult then env.soError == 0 else false
    connected

/-- Default `timeoutMs` of `isHostReachable` (500). -/
def isHostReachableDefaultTimeoutMs : Int := 500

/-- Default `port` of `isHostReachable` (80). -/
def isHostReachableDefaultPort : Int := 80

/-- `bool testPortFast(const std::string& ip, int port, int timeoutMs = 200)`:
body identical to `isHostReachable`, translated separately. -/
def testPortFast (env : SocketEnv) (ip : String) (port : Int) (timeoutMs : Int) : Bool :=
  if env.socketResult < 0 then false
  else
    let connected := if 0 < env.selectResult then env.soError == 0 else false
    connected

/-- Default `timeoutMs` of `testPortFast` (200). -/
def testPortFastDefaultTimeoutMs : Int := 200

/-- `testPortFast` as called with its default timeout argument. -/
def testPortFastD (env : SocketEnv) (ip : String) (port : Int) : Bool :=
  testPortFast env ip port testPortFastDefaultTimeoutMs

/-- `isHostReachable` with open-socket accounting: the count of sockets still
open at return, tracking the `socket` acquisition and the `close` before the
final `return`.  The early `return false` after a failed `socket` call created
nothing, so it holds no socket either. -/
def isHostReachableOpenCount (env : SocketEnv) (ip : String) (port : Int)
    (timeoutMs : Int) : Bool × Nat :=
  if env.socketResult < 0 then (false, 0)
  else
    let opened := 1
    let connected := if 0 < env.selectResult then env.soError == 0 else false
    let opened := opened - 1
    (connected, opened)

/-- Initial value of the global `std::atomic<bool> serverConnection{ true }`. -/
def serverConnectionInit : Bool := true

/-- State of `monitorServer`: the local `failureCount` and the published
global `serverConnection`. -/
structure MonitorState where
  failureCount : Nat
  serverConnection : Bool
deriving DecidableEq

/-- State at entry of the monitor loop: `failureCount = 0`, global flag at its
initial value `true`. -/
def initialState : MonitorState :=
  { failureCount := 0, serverConnection := serverConnectionInit }

/-- `const int failureThreshold = 3` in `monitorServer`. -/
def monitorFailureThreshold : Nat := 3

/-- `const int intervalMs = 5000` in `monitorServer`. -/
def monitorIntervalMs : Int := 5000

/-- One iteration of the `while (true)` body of `monitorServer`, given the
probe outcome `reachable`: reset or increment `failureCount`, then store
`false` into `serverConnection` when `failureCount >= failureThreshold`,
`true` otherwise. -/
def monitorStep (threshold : Nat) (s : MonitorState) (reachable : Bool) : MonitorState :=
  let fc := if reachable then 0 else s.failureCount + 1
  { failureCount := fc, serverConnection := if threshold ≤ fc then false else true }

/-- The probe `monitorServer` performs each cycle: `isHostReachable(ip, 80)`,
port 80 explicit and the 500 ms timeout taken from the default argument. -/
def monitorProbe (env : SocketEnv) (ip : String) : Bool :=
  isHostReachable env ip 80 isHostReachableDefaultTimeoutMs

/-- Run the monitor loop over a finite list of probe outcomes, returning the
final state. -/
def monitorRun (threshold : Nat) (s : MonitorState) : List Bool → MonitorState
  | [] => s
  | o :: os => monitorRun threshold (monitorStep threshold s o) os

/-- The sequence of values stored into `serverConnection`, one per loop
iteration (one `store` per cycle). -/
def statusTrace (threshold : Nat) (s : MonitorState) : List Bool → List Bool
  | [] => []
  | o :: os =>
    let s' := monitorStep threshold s o
    s'.serverConnection :: statusTrace threshold s' os

/-- Invariant of the monitor (spec §3): the published status is `false`
exactly when the consecutive-failure count has reached the threshold. -/
def monitorInv (threshold : Nat) (s : MonitorState) : Prop :=
  s.serverConnection = false ↔ threshold ≤ s.failureCount

/-- Whitespace class skipped by `std::stoi` (via `strtol`/`isspace`). -/
def isSpaceCh (c : Char) : Bool :=
  c == ' ' || c == '\t' || c == '\n' || c == '\x0b' || c == '\x0c' || c == '\r'

/-- Value of a list of decimal digit characters. -/
def digitsToNat (ds : List Char) : Nat :=
  ds.foldl (fun a c => a * 10 + (c.toNat - 48)) 0

/-- `INT_MAX` for 32-bit `int`. -/
def intMax : Int := 2147483647

/-- `INT_MIN` for 32-bit `int`. -/
def intMin : Int := -2147483648

/-- The two exceptions `std::stoi` can throw. -/
inductive StoiErr where
  | invalidArgument
  | outOfRange
deriving DecidableEq

/-- `std::stoi` on the characters of the argument string: skip leading
whitespace, take an optional sign, then a maximal run of decimal digits
(trailing characters ignored); `std::invalid_argument` when no digit is
found, `std::out_of_range` when the value does not fit in `int`. -/
def stoi (cs : List Char) : Except StoiErr Int :=
  let cs1 := cs.dropWhile isSpaceCh
  let signAndRest : Int × List Char :=
    match cs1 with
    | '-' :: r => (-1, r)
    | '+' :: r => (1, r)
    | _ => (1, cs1)
  let ds := signAndRest.2.takeWhile Char.isDigit
  if ds = [] then Except.error StoiErr.invalidArgument
  else
    let v : Int := signAndRest.1 * (digitsToNat ds : Int)
    if v < intMin ∨ intMax < v then Except.error StoiErr.outOfRange
    else Except.ok v

/-- The fixed target address of `main`: `std::string ip = "127.0.0.1"`. -/
def mainIp : String := "127.0.0.1"

/-- Response printed by one iteration of the command loop in `main`. -/
inductive CliOutput where
  | exitOut
  | statusOut (online : Bool)
  | portOut (port : Int) (isOpen : Bool)
  | invalidPort
  | unknownCmd
deriving DecidableEq

/-- Result of one iteration of the command loop: the printed response, the
value of the shared `serverConnection` flag afterwards, and the list of ports
for which a connection attempt (`testPortFast`) was actually made. -/
structure CliResult where
  out : CliOutput
  conn : Bool
  probes : List Int
deriving DecidableEq

/-- Boolean prefix test on character lists, modelling
`input.rfind("test ", 0) == 0`. -/
def leadsWith : List Char → List Char → Bool
  | [], _ => true
  | _ :: _, [] => false
  | p :: ps, c :: cs => p == c && leadsWith ps cs

/-- The characters of the command head `"test "`. -/
def testLead : List Char := ['t', 'e', 's', 't', ' ']

/-- One iteration of the command loop in `main`: dispatch on the input line.
`exit` breaks the loop; `status` prints the shared flag; a line starting with
`"test "` runs `std::stoi` on `input.substr(5)` — on success the port is
probed with `testPortFast(ip, port)` and reported Open/Closed, and any
exception is caught and reported as `[!] Invalid port number.`; anything else
is an unknown command.  No branch writes `serverConnection`. -/
def cliStep (env : SocketEnv) (conn : Bool) (input : String) : CliResult :=
  if input.toList = "exit".toList then
    { out := CliOutput.exitOut, conn := conn, probes := [] }
  else if input.toList = "status".toList then
    { out := CliOutput.statusOut conn, conn := conn, probes := [] }
  else if leadsWith testLead input.toList then
    match stoi (input.toList.drop 5) with
    | Except.error _ => { out := CliOutput.invalidPort, conn := conn, probes := [] }
    | Except.ok p =>
      { out := CliOutput.portOut p (testPortFast env mainIp p testPortFastDefaultTimeoutMs),
        conn := conn, probes := [p] }
  else { out := CliOutput.unknownCmd, conn := conn, probes := [] }

/-! ## Helper lemmas -/

/-- Every iteration of the loop body re-establishes the monitor invariant,
whatever the incoming state and probe outcome. -/
theorem monitorStep_establishes_inv (threshold : Nat) (s : MonitorState) (o : Bool) :
    monitorInv threshold (monitorStep threshold s o) := by
  simp only [monitorInv, monitorStep]
  by_cases h : threshold ≤ (if o then 0 else s.failureCount + 1) <;> simp [h]

/-- Running the loop from a state satisfying the invariant keeps it. -/
theorem monitorRun_inv (threshold : Nat) (s : MonitorState) (outs : List Bool)
    (h : monitorInv threshold s) : monitorInv threshold (monitorRun threshold s outs) := by
  induction outs generalizing s with
  | nil => exact h
  | cons a as ih => exact ih _ (monitorStep_establishes_inv threshold s a)

/-- One value is stored into `serverConnection` per loop iteration. -/
theorem statusTrace_length (threshold : Nat) (s : MonitorState) (outs : List Bool) :
    (statusTrace threshold s outs).length = outs.length := by
  induction outs generalizing s with
  | nil => rfl
  | cons a as ih => simp [statusTrace, ih]

/-- After any finite history the loop takes one more iteration. -/
theorem monitorRun_append (threshold : Nat) (s : MonitorState) (outs : List Bool) (o : Bool) :
    monitorRun threshold s (outs ++ [o]) =
      monitorStep threshold (monitorRun threshold s outs) o := by
  induction outs generalizing s with
  | nil => rfl
  | cons a as ih => simp [monitorRun, ih]

/-- `leadsWith p s` holds exactly when `s` extends `p`. -/
theorem leadsWith_iff (p s : List Char) : leadsWith p s = true ↔ ∃ t, s = p ++ t := by
  induction p generalizing s with
  | nil => simp [leadsWith]
  | cons a as ih =>
    cases s with
    | nil => simp [leadsWith]
    | cons b bs =>
      simp only [leadsWith, Bool.and_eq_true, beq_iff_eq, ih, List.cons_append,
        List.cons.injEq]
      constructor
      · rintro ⟨hab, t, ht⟩
        exact ⟨t, hab.symm, ht⟩
      · rintro ⟨t, hba, ht⟩
        exact ⟨hba.symm, t, ht⟩

/-! ## Claims -/

/-- C1 (corrected): if `std::stoi` on the text after `"test "` throws (for any
exception, e.g. non-numeric input such as `"abc"`), the dispatcher reports the
invalid-input response — distinct from every port-closed response — and probes
no port.  (Numeric input outside 1–65535 that fits in `int`, such as
`"70000"`, is NOT rejected: see the counterexample.) -/
theorem probe_invalid_input_C1 (env : SocketEnv) (conn : Bool) (input : String) (e : StoiErr)
    (hlead : leadsWith testLead input.toList = true)
    (herr : stoi (input.toList.drop 5) = Except.error e) :
    (cliStep env conn input).out = CliOutput.invalidPort ∧
    (cliStep env conn input).probes = [] ∧
    ∀ p : Int, CliOutput.invalidPort ≠ CliOutput.portOut p false := by
  obtain ⟨r, hr⟩ := (leadsWith_iff testLead input.toList).mp hlead
  have h1 : ¬ (input.toList = "exit".toList) := by rw [hr]; simp [testLead]
  have h2 : ¬ (input.toList = "status".toList) := by rw [hr]; simp [testLead]
  unfold cliStep
  rw [if_neg h1, if_neg h2, if_pos hlead, herr]
  exact ⟨rfl, rfl, fun p h => by cases h⟩

/-- Witness for C1's theorem at input `"test abc"`. -/
theorem probe_invalid_input_C1_witness :
    (cliStep ⟨0, 1, 0⟩ true "test abc").out = CliOutput.invalidPort ∧
    (cliStep ⟨0, 1, 0⟩ true "test abc").probes = [] :=
  ⟨(probe_invalid_input_C1 ⟨0, 1, 0⟩ true "test abc" StoiErr.invalidArgument rfl rfl).1,
   (probe_invalid_input_C1 ⟨0, 1, 0⟩ true "test abc" StoiErr.invalidArgument rfl rfl).2.1⟩

/-- Counterexample to C1 as stated: `"70000"` is outside 1–65535, yet the
dispatcher parses it, attempts a connection to port 70000 (in an environment
where the connection succeeds the response is even `Open`), and does not
report the invalid-input error. -/
theorem probe_invalid_input_C1_cex :
    (65535 : Int) < 70000 ∧
    (cliStep ⟨0, 1, 0⟩ true "test 70000").out = CliOutput.portOut 70000 true ∧
    (cliStep ⟨0, 1, 0⟩ true "test 70000").probes = [70000] ∧
    (cliStep ⟨0, 1, 0⟩ true "test 70000").out ≠ CliOutput.invalidPort :=
  ⟨by decide, rfl, rfl, fun h => by cases h⟩

/-- C2: a failed probe flips the stored status to `false` exactly when the
incremented counter reaches the threshold; a successful probe stores `true`
(immediate recovery); with threshold 3 the outcome sequence
fail, fail, fail, success publishes `true, true, false, true`. -/
theorem monitor_debounce_C2 (threshold : Nat) (hpos : 0 < threshold) (s : MonitorState) :
    ((monitorStep threshold s false).serverConnection = false ↔
      threshold ≤ s.failureCount + 1) ∧
    (monitorStep threshold s true).serverConnection = true ∧
    statusTrace monitorFailureThreshold initialState [false, false, false, true] =
      [true, true, false, true] := by
  refine ⟨?_, ?_, by decide⟩
  · simp only [monitorStep]
    by_cases h : threshold ≤ s.failureCount + 1 <;> simp [h]
  · have h : ¬ threshold ≤ 0 := by omega
    simp [monitorStep, h]

/-- Witness for C2's theorem at threshold 3 from the initial state. -/
theorem monitor_debounce_C2_witness :
    (monitorStep 3 initialState true).serverConnection = true :=
  (monitor_debounce_C2 3 (by decide) initialState).2.1

/-- C3: the invariant `serverConnection = false ↔ threshold ≤ failureCount`
holds at the initial state (for a positive threshold), is established by every
iteration of the loop body, and therefore holds after every nonempty run from
the initial state. -/
theorem monitor_invariant_C3 (threshold : Nat) (hpos : 0 < threshold) (s : MonitorState)
    (o : Bool) (outs : List Bool) :
    monitorInv threshold initialState ∧
    monitorInv threshold (monitorStep threshold s o) ∧
    (outs ≠ [] → monitorInv threshold (monitorRun threshold initialState outs)) := by
  have hinit : monitorInv threshold initialState := by
    simp only [monitorInv, initialState, serverConnectionInit]
    constructor
    · intro h; cases h
    · intro h; omega
  refine ⟨hinit, monitorStep_establishes_inv threshold s o, fun _ => ?_⟩
  exact monitorRun_inv threshold initialState outs hinit

/-- Witness for C3's theorem at threshold 3. -/
theorem monitor_invariant_C3_witness : monitorInv 3 initialState :=
  (monitor_invariant_C3 3 (by decide) initialState true []).1

/-- C4: the connector returns `true` exactly when the socket was created, the
readiness wait reported the socket writable within the timeout, and the socket
carries no pending error; socket-creation failure, wait timeout or error, and
a ready-but-errored socket all collapse to the same `false`. -/
theorem connector_error_folding_C4 (env : SocketEnv) (ip : String) (port t : Int) :
    (isHostReachable env ip port t = true ↔
      0 ≤ env.socketResult ∧ 0 < env.selectResult ∧ env.soError = 0) ∧
    (env.socketResult < 0 → isHostReachable env ip port t = false) ∧
    (env.selectResult ≤ 0 → isHostReachable env ip port t = false) ∧
    (env.soError ≠ 0 → isHostReachable env ip port t = false) := by
  refine ⟨?_, fun h => ?_, fun h => ?_, fun h => ?_⟩
  · unfold isHostReachable
    by_cases h1 : env.socketResult < 0
    · simp [h1]
    · by_cases h2 : 0 < env.selectResult
      · simp [h1, h2]; omega
      · simp [h1, h2]
  · simp [isHostReachable, h]
  · have h2 : ¬ 0 < env.selectResult := by omega
    unfold isHostReachable
    by_cases h1 : env.socketResult < 0 <;> simp [h1, h2]
  · unfold isHostReachable
    by_cases h1 : env.socketResult < 0
    · simp [h1]
    · by_cases h2 : 0 < env.selectResult <;> simp [h1, h2, h]

/-- Witness for C4's theorem: a failed `socket` call yields `false`. -/
theorem connector_error_folding_C4_witness :
    isHostReachable ⟨-1, 1, 0⟩ mainIp 80 500 = false :=
  (connector_error_folding_C4 ⟨-1, 1, 0⟩ mainIp 80 500).2.1 (by decide)

/-- C5: `testPortFast` is extensionally equal to `isHostReachable` on the same
inputs; with its default timeout it is the connector at 200 ms. -/
theorem prober_wraps_connector_C5 (env : SocketEnv) (ip : String) (port t : Int) :
    testPortFast env ip port t = isHostReachable env ip port t ∧
    testPortFastD env ip port = isHostReachable env ip port testPortFastDefaultTimeoutMs :=
  ⟨rfl, rfl⟩

/-- C6: the monitor loop has no terminal state: every outcome of every cycle
is processed (one stored status per outcome, for arbitrary sequences
including all-failure ones), and after any finite history the loop performs
exactly one more iteration of its body. -/
theorem monitor_no_terminal_C6 (threshold : Nat) (s : MonitorState) (outs : List Bool)
    (o : Bool) :
    (statusTrace threshold s outs).length = outs.length ∧
    monitorRun threshold s (outs ++ [o]) =
      monitorStep threshold (monitorRun threshold s outs) o :=
  ⟨statusTrace_length threshold s outs, monitorRun_append threshold s outs o⟩

/-- C7: on every exit path of the connector the number of sockets still open
at return is zero, and the accounting version computes the same boolean as
`isHostReachable`. -/
theorem connector_no_leak_C7 (env : SocketEnv) (ip : String) (port t : Int) :
    (isHostReachableOpenCount env ip port t).2 = 0 ∧
    (isHostReachableOpenCount env ip port t).1 = isHostReachable env ip port t := by
  unfold isHostReachableOpenCount isHostReachable
  by_cases h : env.socketResult < 0 <;> simp [h]

/-- C8: the prober's default timeout is 200 ms, strictly below the 500 ms
connector default, and the monitor's per-cycle probe is exactly the connector
at port 80 with the 500 ms default timeout. -/
theorem prober_timeout_shorter_C8 :
    testPortFastDefaultTimeoutMs = 200 ∧
    isHostReachableDefaultTimeoutMs = 500 ∧
    testPortFastDefaultTimeoutMs < isHostReachableDefaultTimeoutMs ∧
    ∀ (env : SocketEnv) (ip : String), monitorProbe env ip =
      isHostReachable env ip isHostReachableDefaultPort isHostReachableDefaultTimeoutMs :=
  ⟨rfl, rfl, by decide, fun _ _ => rfl⟩

/-- C9: no command of the dispatcher (status query, port test, exit, unknown)
ever changes the shared `serverConnection` flag, and the monitor stores into
it exactly once per poll cycle. -/
theorem status_cell_single_writer_C9 :
    (∀ (env : SocketEnv) (conn : Bool) (input : String),
      (cliStep env conn input).conn = conn) ∧
    (∀ (threshold : Nat) (s : MonitorState) (outs : List Bool),
      (statusTrace threshold s outs).length = outs.length) := by
  refine ⟨fun env conn input => ?_, fun threshold s outs => statusTrace_length threshold s outs⟩
  unfold cliStep
  split
  · rfl
  split
  · rfl
  split
  · split <;> rfl
  · rfl

/-- C10: before the monitor's first poll the shared flag holds its initializer
`true`, so a `status` query at that point reports Online whatever the socket
environment, and probes nothing. -/
theorem initial_status_true_C10 :
    serverConnectionInit = true ∧
    initialState.serverConnection = true ∧
    ∀ env : SocketEnv,
      (cliStep env serverConnectionInit "status").out = CliOutput.statusOut true ∧
      (cliStep env serverConnectionInit "status").probes = [] :=
  ⟨rfl, rfl, fun _ => ⟨rfl, rfl⟩⟩
